import Mathlib

/-!
Verification of the webauto repository's CDP transport, option assembly,
element lookup and tab layers against its natural-language specification.

Each definition is a shallow embedding of one Python function of the
repository (file and symbol named in its doc comment).  Stateful methods
become explicit state-passing functions; `async` failure paths become
`Except`; external I/O outcomes (WebSocket frames, CDP responses) are
passed in as explicit arguments so that every definition is executable.
-/

/- ===================================================================
   Connection layer: src/src/connection/connection.py
   =================================================================== -/

/-- One JSON sub-value of a parsed frame, abstracted to the two facts the
connection code reads off it: its `json.dumps` serialization (the payload
handed to `Future.set_result`) and its Python truthiness (the
`if message.get('result'):` test). -/
structure Payload where
  dump : String
  truthy : Bool
deriving DecidableEq, Repr

/-- The JSON value found under the key `"id"` of a frame: either an int
(`isinstance(message.get('id'), int)` succeeds) or some non-int value. -/
inductive IdJson where
  | int (i : Int)
  | nonInt
deriving DecidableEq, Repr

/-- A frame already decoded by `json.loads`, restricted to the three keys
`CDPSession._process_single_message` and its helpers ever read:
`id`, `result` and `error`.  `none` means the key is absent. -/
structure ParsedMessage where
  idField : Option IdJson
  resultField : Option Payload
  errorField : Option Payload
deriving DecidableEq, Repr

/-- `CDPMessageManager` (connection.py lines 22-42): `_pending_messages`
is a `dict[int, asyncio.Future]`; every future held in the map is still
awaiting (futures are deleted from the map in the same call that resolves
them), so the map is embedded as the insertion-ordered list of pending
command ids, together with the `_id` counter. -/
structure CDPMessageManager where
  pending : List Int
  curId : Int
deriving DecidableEq, Repr

/-- `CDPMessageManager.create_future`: increment `_id`, insert a fresh
awaiting future under the new id, return the id. -/
def CDPMessageManager.create_future (m : CDPMessageManager) : Int × CDPMessageManager :=
  (m.curId + 1, { pending := m.pending ++ [m.curId + 1], curId := m.curId + 1 })

/-- `CDPMessageManager.remove_pending`: `del` the entry if the id is a key. -/
def CDPMessageManager.remove_pending (m : CDPMessageManager) (i : Int) : CDPMessageManager :=
  { m with pending := m.pending.filter (fun j => j ≠ i) }

/-- The externally observable action a processed frame triggers on the
futures / the logger.  `setResult` is `future.set_result(json.dumps(...))`;
there is no rejection variant because the connection code never calls
`set_exception`. -/
inductive FrameEffect where
  | parseFailed
  | setResult (id : Int) (payload : String)
  | warnedNoPending (id : Int)
  | loggedResolveError
  | eventStub
deriving DecidableEq, Repr

/-- `CDPMessageManager.resolve_command`: if the id is pending, set the
future's result and remove it from the map; otherwise only log a warning. -/
def CDPMessageManager.resolve_command (m : CDPMessageManager) (i : Int) (payload : String) :
    CDPMessageManager × FrameEffect :=
  if i ∈ m.pending then (m.remove_pending i, .setResult i payload)
  else (m, .warnedNoPending i)

/-- Status of the asyncio receive task (`CDPSession._receive_task`).
`Task.done()` is true for both `done` and `cancelled`. -/
inductive TaskStatus where
  | running
  | done
  | cancelled
deriving DecidableEq, Repr

/-- The mutable state of a `CDPSession` (connection.py lines 45-51):
`_ws_connection` (a live WebSocket object or `None`), `_receive_task`,
and `_message_manager`. -/
structure CDPSessionState where
  wsConnection : Option Unit
  receiveTask : Option TaskStatus
  messageManager : CDPMessageManager
deriving DecidableEq, Repr

/-- `CDPSession._cleanup` (connection.py lines 97-105): close the socket if
one is held and clear the reference; cancel the receive task if it is not
done.  The method never touches `_message_manager`. -/
def CDPSessionState.cleanup (s : CDPSessionState) : CDPSessionState :=
  { wsConnection := none
    receiveTask := s.receiveTask.map (fun t => if t = .running then .cancelled else t)
    messageManager := s.messageManager }

/-- `CDPSession._process_single_message` (connection.py lines 141-149)
composed with `_parse_raw_message`, `_is_command_message` and
`_handle_command_message`: a frame that fails JSON decoding is dropped
with a warning; a frame whose `id` is an int is treated as a command
response and resolved only when `message.get('result')` is truthy
(otherwise only `logger.error` runs); any other frame goes to
`_handle_event_message`, whose body is the placeholder `...`. -/
def CDPSessionState.processSingleMessage (m : CDPMessageManager) (raw : Option ParsedMessage) :
    CDPMessageManager × FrameEffect :=
  match raw with
  | none => (m, .parseFailed)
  | some msg =>
    match msg.idField with
    | some (.int i) =>
      match msg.resultField with
      | some r => if r.truthy then m.resolve_command i r.dump else (m, .loggedResolveError)
      | none => (m, .loggedResolveError)
    | _ => (m, .eventStub)

/- ===================================================================
   Option assembly: src/webauto/browser/options.py
   =================================================================== -/

/-- The error raised by `Options.add_argument` on a duplicate
(`ArgumentAlreadyExistsInOptions`, cdpkit.exception). -/
inductive OptErr where
  | argumentAlreadyExists (arg : String)
deriving DecidableEq, Repr

/-- `webauto/browser/options.py`, class `Options` (a pydantic model):
the fields the option-assembly code reads and writes. -/
structure Options where
  executable_path : String
  headless : Bool
  user_data_dir : String
  arguments : List String
deriving DecidableEq, Repr

/-- `arg.split('=')[0]`: the prefix of the argument before its first `=`
(the whole argument when it contains no `=`).  Used to build
`options_args_dict` in `Options.check`. -/
def argKey (s : String) : String :=
  ⟨s.data.takeWhile (fun c => c ≠ '=')⟩

/-- Lookup in `options_args_dict = {arg.split('=')[0]: arg for ...}`:
the dict is built left to right, so a repeated key keeps the *last*
argument carrying it. -/
def dictGet (args : List String) (k : String) : Option String :=
  (args.filter (fun a => argKey a == k)).getLast?

/-- `Options.add_argument`: append the argument, or raise
`ArgumentAlreadyExistsInOptions` when the identical string is present. -/
def Options.add_argument (args : List String) (arg : String) : Except OptErr (List String) :=
  if arg ∈ args then .error (.argumentAlreadyExists arg)
  else .ok (args ++ [arg])

/-- `Options.remove_argument`: remove the first occurrence of the string
when present, otherwise do nothing (`list.remove` guarded by `in`). -/
def Options.remove_argument (args : List String) (arg : String) : List String :=
  args.erase arg

/-- `Options._delete_options_arguments` with its single entry
`'--remote-debugging-port'`: if the snapshot dict `d` holds the key,
remove the argument the dict maps it to. -/
def Options.deleteOptionsArguments (d : List String) (args : List String) : List String :=
  match dictGet d "--remote-debugging-port" with
  | some a => Options.remove_argument args a
  | none => args

/-- `Options._set_headless`: when `headless` is set and the snapshot dict
has no `--headless` key, add `--headless`. -/
def Options.setHeadless (headless : Bool) (d : List String) (args : List String) :
    Except OptErr (List String) :=
  if headless then
    if (dictGet d "--headless").isSome then .ok args
    else Options.add_argument args "--headless"
  else .ok args

/-- `Options._set_user_data_dir`: when the `user_data_dir` field is
non-empty, drop the dict's `--user-data-dir` argument (if any) and add
`--user-data-dir=<field>`.  When the field is empty, the method does
nothing: the scratch-directory branch is commented out in the source
under a `# todo set temp dir` marker. -/
def Options.setUserDataDir (userDataDir : String) (d : List String) (args : List String) :
    Except OptErr (List String) :=
  if userDataDir ≠ "" then
    let args' := match dictGet d "--user-data-dir" with
      | some a => Options.remove_argument args a
      | none => args
    Options.add_argument args' ("--user-data-dir=" ++ userDataDir)
  else .ok args

/-- `Options.add_default_arguments`: three `add_argument` calls in order. -/
def Options.addDefaultArguments (args : List String) : Except OptErr (List String) :=
  match Options.add_argument args "--no-first-run" with
  | .error e => .error e
  | .ok args1 =>
    match Options.add_argument args1 "--no-default-browser-check" with
    | .error e => .error e
    | .ok args2 => Options.add_argument args2 "--enable-experimental-web-platform-features"

/-- The `--remote-debugging-port=<N>` argument appended last by `check`. -/
def portArgument (remotePort : Nat) : String :=
  "--remote-debugging-port=" ++ toString remotePort

/-- `Options.check` (options.py lines 67-77): build the key dict once from
the current arguments, then run the delete / headless / user-data-dir /
defaults / port steps in order, each mutating `self.arguments`. -/
def Options.check (o : Options) (remotePort : Nat) : Except OptErr Options :=
  let d := o.arguments
  let args1 := Options.deleteOptionsArguments d o.arguments
  match Options.setHeadless o.headless d args1 with
  | .error e => .error e
  | .ok args2 =>
    match Options.setUserDataDir o.user_data_dir d args2 with
    | .error e => .error e
    | .ok args3 =>
      match Options.addDefaultArguments args3 with
      | .error e => .error e
      | .ok args6 =>
        match Options.add_argument args6 (portArgument remotePort) with
        | .error e => .error e
        | .ok args7 => .ok { o with arguments := args7 }

/- ===================================================================
   BrowserInfo: src/webauto/browser/chromium/context.py lines 19-25
   =================================================================== -/

/-- Model of `random.randint(lo, hi)`: a draw from the inclusive range
`[lo, hi]`, made deterministic by an explicit seed. -/
def randint (lo hi seed : Nat) : Nat :=
  lo + seed % (hi + 1 - lo)

/-- The `BrowserInfo` class object.  The field default
`remote_port: int = random.randint(9222, 9322)` is an ordinary default
value, so the `randint` call runs once, when the class body is executed;
the resulting number is stored on the class and reused by every
construction.  (`Options()` is likewise a per-class default; pydantic
copies it per instance.) -/
structure BrowserInfoClass where
  hostDefault : String
  remotePortDefault : Nat
deriving DecidableEq, Repr

/-- Executing the `class BrowserInfo` body under ambient random seed
`seed`: the single class-definition-time `randint(9222, 9322)` draw. -/
def defineBrowserInfoClass (seed : Nat) : BrowserInfoClass :=
  { hostDefault := "localhost", remotePortDefault := randint 9222 9322 seed }

/-- A constructed `BrowserInfo` instance. -/
structure BrowserInfo where
  host : String
  remote_port : Nat
  options : Options
deriving DecidableEq, Repr

/-- The default `Options()` value (all pydantic defaults). -/
def defaultOptions : Options :=
  { executable_path := "", headless := false, user_data_dir := "", arguments := [] }

/-- Constructing a `BrowserInfo`: absent fields take the class defaults,
then `model_post_init` runs `self.options.check(self.remote_port)`.
Construction evaluates no field-default expression, so it consumes no
randomness: the ambient random state `rng` is returned unchanged. -/
def mkBrowserInfo (cls : BrowserInfoClass) (host? : Option String) (remotePort? : Option Nat)
    (options? : Option Options) (rng : Nat) : Except OptErr BrowserInfo × Nat :=
  let port := remotePort?.getD cls.remotePortDefault
  let opts := options?.getD defaultOptions
  match opts.check port with
  | .error e => (.error e, rng)
  | .ok opts' => (.ok { host := host?.getD cls.hostDefault, remote_port := port, options := opts' }, rng)

/- ===================================================================
   CDP commands issued by the element / tab layers
   =================================================================== -/

/-- A CDP protocol error returned in a response envelope. -/
structure CDPErr where
  code : Int
  message : String
deriving DecidableEq, Repr

/-- The CDP commands the modelled element / tab code can put on the wire,
with the parameters the claims speak about. -/
inductive CDPCmd where
  | performSearch (query : String) (includeUserAgentShadowDOM : Bool)
  | getSearchResults (searchId : String) (fromIndex toIndex : Nat)
  | discardSearchResults (searchId : String)
  | describeNodeById (nodeId : Nat)
  | setFileInputFiles (files : List String) (backendNodeId : Nat)
  | setInterceptFileChooserDialog (enabled : Bool)
deriving DecidableEq, Repr

/-- Result mode of the `find_element*` family (`'single' | 'multiple'`). -/
inductive FindMode where
  | single
  | multiple
deriving DecidableEq, Repr

/-- Errors surfacing from element lookup. -/
inductive FindErr where
  | noSuchElement
  | cdp (e : CDPErr)
deriving DecidableEq, Repr

/- ===================================================================
   XPath lookup, legacy implementation:
   src/src/browser/element.py, ElementFinder.find_element_by_xpath,
   non-Element (document-rooted) branch, lines 169-191
   =================================================================== -/

/-- `[await self._make_element(node_id=node_id) for node_id in node_ids]`:
`_make_element` raises `NoSuchElement` on a zero `NodeId` and otherwise
issues `DOM.describeNode{nodeId}`.  Returns the surviving node ids and
the commands issued up to the first failure. -/
def makeElementsCmds : List Nat → Except FindErr (List Nat) × List CDPCmd
  | [] => (.ok [], [])
  | i :: rest =>
    if i = 0 then (.error .noSuchElement, [])
    else
      ((makeElementsCmds rest).1.map (fun l => i :: l),
       .describeNodeById i :: (makeElementsCmds rest).2)

/-- The document-rooted branch of the legacy
`ElementFinder.find_element_by_xpath` (taken when the receiver is not an
`Element`): `DOM.performSearch{query, includeUserAgentShadowDOM: true}`,
then inside `try`: return `[]` / raise `NoSuchElement` on a zero
`resultCount`, else `DOM.getSearchResults{searchId, 0, toIndex}`; the
`finally` block issues `DOM.discardSearchResults{searchId}` on every one
of those exits; the element materialisation loop runs after the
`try/finally`.  The browser's answers to `performSearch` and
`getSearchResults` are passed in as `performOutcome` / `getResultsOutcome`.
Returns the result and the full command trace. -/
def srcFindElementByXpathDocument (xpath : String) (mode : FindMode)
    (performOutcome : Except CDPErr (String × Nat))
    (getResultsOutcome : Except CDPErr (List Nat)) :
    Except FindErr (List Nat) × List CDPCmd :=
  match performOutcome with
  | .error e => (.error (.cdp e), [.performSearch xpath true])
  | .ok (searchId, resultCount) =>
    if resultCount = 0 then
      match mode with
      | .multiple => (.ok [], [.performSearch xpath true, .discardSearchResults searchId])
      | .single => (.error .noSuchElement, [.performSearch xpath true, .discardSearchResults searchId])
    else
      let toIndex := match mode with | .multiple => resultCount | .single => 1
      match getResultsOutcome with
      | .error e =>
        (.error (.cdp e),
         [.performSearch xpath true, .getSearchResults searchId 0 toIndex,
          .discardSearchResults searchId])
      | .ok nodeIds =>
        ((makeElementsCmds nodeIds).1,
         [.performSearch xpath true, .getSearchResults searchId 0 toIndex,
          .discardSearchResults searchId] ++ (makeElementsCmds nodeIds).2)

/- ===================================================================
   XPath lookup, current implementation:
   src/webauto/browser/element.py, ElementFinder._find_element_by_xpath,
   lines 110-136, and src/webauto/browser/constants.py, JsScripts
   =================================================================== -/

/-- `xpath.replace('"', '\\"')` at the top of `_find_element_by_xpath`. -/
def escapeQuotes (s : String) : String :=
  ⟨s.data.foldr (fun c acc => if c = '"' then '\\' :: '"' :: acc else c :: acc) []⟩

/-- `JsScripts.find_element_by_xpath` (constants.py lines 36-43): the
f-string it returns for a given (already quote-escaped) xpath. -/
def JsScripts.findElementByXpath (xpath : String) : String :=
  "\n        function() \x7b\n            return document.evaluate(\n                \""
    ++ xpath
    ++ "\", this, null,\n                XPathResult.FIRST_ORDERED_NODE_TYPE, null\n            ).singleNodeValue;\n        \x7d"

/-- `JsScripts.find_elements_by_xpath` (constants.py lines 45-58). -/
def JsScripts.findElementsByXpath (xpath : String) : String :=
  "\n            function() \x7b\n                var elements = document.evaluate(\n                    \""
    ++ xpath
    ++ "\", this, null,\n                    XPathResult.ORDERED_NODE_SNAPSHOT_TYPE, null\n                );\n                var results = [];\n                for (var inx = 0; inx < elements.snapshotLength; inx++) \x7b\n                    results.push(elements.snapshotItem(inx));\n                \x7d\n                return results;\n            \x7d"

/-- A Python call error. -/
inductive PyErr where
  | typeError (msg : String)
deriving DecidableEq, Repr

/-- Calling a Python classmethod whose (non-`cls`) parameters are
`acceptedParams`, with one positional argument and the keyword arguments
`kwargs`: a keyword that names no parameter raises `TypeError` before the
body runs. -/
def callClassmethod (acceptedParams : List String) (body : String → String)
    (positional : String) (kwargs : List String) : Except PyErr String :=
  if kwargs.all (fun k => k ∈ acceptedParams) then .ok (body positional)
  else .error (.typeError "unexpected keyword argument")

/-- The declared parameters of `JsScripts.find_element_by_xpath` and
`JsScripts.find_elements_by_xpath` in constants.py: `xpath` only. -/
def jsScriptsXpathParams : List String := ["xpath"]

/-- `ElementFinder._find_element_by_xpath` (webauto/browser/element.py
lines 110-136): escape quotes, then call
`JsScripts.find_element(s)_by_xpath(xpath, is_document=...)`.  Both
classmethods accept only `xpath`, so the `is_document=` keyword raises
`TypeError` and no CDP command is issued; the `execute_script` /
`DOM.describeNode` / `DOM.pushNodesByBackendIdsToFrontend` remainder of
the method is unreachable (its commands would land in the returned trace,
which therefore stays empty).  The first component is the script the call
would have produced, the second the CDP trace. -/
def webautoFindElementByXpath (xpath : String) (mode : FindMode) :
    Except PyErr String × List CDPCmd :=
  let x := escapeQuotes xpath
  let call :=
    match mode with
    | .multiple => callClassmethod jsScriptsXpathParams JsScripts.findElementsByXpath x ["is_document"]
    | .single => callClassmethod jsScriptsXpathParams JsScripts.findElementByXpath x ["is_document"]
  match call with
  | .error e => (.error e, [])
  | .ok script => (.ok script, [])

/- ===================================================================
   File-chooser interception: src/webauto/browser/tab.py lines 176-189
   =================================================================== -/

/-- An action visible on entry/exit of the `expect_file_chooser` scope:
either a CDP command or the registration of the one-shot
`Page.fileChooserOpened` handler (`self.on(..., temporary=True)`). -/
inductive ChooserAction where
  | cmd (c : CDPCmd)
  | registerOneShot (event : String)
deriving DecidableEq, Repr

/-- How the caller's `async with` body finishes. -/
inductive BodyOutcome where
  | normal
  | raised
deriving DecidableEq, Repr

/-- Running an `@asynccontextmanager` generator made of straight-line
code around a single `yield`, with no `try`/`finally`: the pre-`yield`
actions always run; the post-`yield` actions run only when the body
completes normally, because an exception in the body is thrown into the
generator at the `yield` point and propagates immediately.  Returns the
actions performed and whether an exception escaped. -/
def runAsyncContextManager (preYield postYield : List ChooserAction) (body : BodyOutcome) :
    List ChooserAction × Bool :=
  match body with
  | .normal => (preYield ++ postYield, false)
  | .raised => (preYield, true)

/-- `Tab.expect_file_chooser` (tab.py lines 176-189): before the `yield`,
`Page.setInterceptFileChooserDialog{enabled: true}` and the one-shot
`Page.fileChooserOpened` handler registration; after the `yield`,
`Page.setInterceptFileChooserDialog{enabled: false}`.  The generator has
no `try`/`finally`. -/
def expectFileChooser (body : BodyOutcome) : List ChooserAction × Bool :=
  runAsyncContextManager
    [.cmd (.setInterceptFileChooserDialog true), .registerOneShot "Page.fileChooserOpened"]
    [.cmd (.setInterceptFileChooserDialog false)]
    body

/- ===================================================================
   Element attribute access and file input:
   src/webauto/browser/element.py, Element.get_attribute (lines 228-238)
   and Element.set_input_files (lines 310-314)
   =================================================================== -/

/-- The `DOM.Node` data the element accessors read: the node name and the
flat `[k0, v0, k1, v1, ...]` attribute sequence. -/
structure DOMNode where
  nodeName : String
  attributes : List String
deriving DecidableEq, Repr

/-- An `Element` together with the node the session would return for it
(the `node` property's `DOM.describeNode{backendNodeId}` answer). -/
structure Element where
  backendNodeId : Nat
  node : DOMNode
deriving DecidableEq, Repr

/-- What `get_attribute` can produce: a matched value, the accumulated
`attrs` dict, Python `None`, or the `IndexError` a flat sequence of odd
length would raise at `_attrs[inx + 1]`. -/
inductive AttrResult where
  | found (v : String)
  | attrMap (m : List (String × String))
  | pynone
  | indexError
deriving DecidableEq, Repr

/-- The loop and final `return` of `Element.get_attribute`: walk the flat
sequence two at a time; on `name == _attrs[inx]` return `_attrs[inx+1]`,
otherwise accumulate the pair into `attrs`; after the loop the source
returns `None if name is None else attrs`. -/
def getAttributeAux : List String → Option String → List (String × String) → AttrResult
  | k :: v :: rest, name, acc =>
    if name = some k then .found v else getAttributeAux rest name (acc ++ [(k, v)])
  | [_], _, _ => .indexError
  | [], name, acc =>
    match name with
    | none => .pynone
    | some _ => .attrMap acc

/-- `Element.get_attribute(name)` on the element's node. -/
def Element.get_attribute (e : Element) (name : Option String) : AttrResult :=
  getAttributeAux e.node.attributes name []

/-- `Element.tag`: `(await self.node).nodeName.lower()` (character-wise
lowercasing of the node name). -/
def Element.tag (e : Element) : String :=
  ⟨e.node.nodeName.data.map Char.toLower⟩

/-- A Python value as it occurs in the `set_input_files` guard: accessing
the `async` properties `self.tag` / `self.get_attribute('type')` without
`await` yields a coroutine object, not a string. -/
inductive PyVal where
  | coroutine
  | pstr (s : String)
deriving DecidableEq, Repr

/-- Python `!=` between such a value and a string literal: a coroutine
object is never equal to a string. -/
def pyNeStr : PyVal → String → Bool
  | .coroutine, _ => true
  | .pstr s, t => s ≠ t

/-- `self.tag` as read inside `set_input_files`: the property is `async`,
and the source does not `await` it, so the access evaluates to a
coroutine object. -/
def Element.tagUnawaited (_ : Element) : PyVal := .coroutine

/-- `self.get_attribute('type')` as read inside `set_input_files`:
likewise an un-awaited coroutine object. -/
def Element.getAttributeUnawaited (_ : Element) (_ : String) : PyVal := .coroutine

/-- The element-layer caller-contract error `ElementNotFileInput`. -/
inductive ElemErr where
  | elementNotFileInput
deriving DecidableEq, Repr

/-- `Element.set_input_files` (element.py lines 310-314):
`if self.tag != 'input' or self.get_attribute('type') != 'file': raise
ElementNotFileInput`, else issue `DOM.setFileInputFiles{files,
backendNodeId}`.  Both comparisons are against un-awaited coroutines. -/
def Element.set_input_files (e : Element) (files : List String) :
    Except ElemErr (List CDPCmd) :=
  if pyNeStr (e.tagUnawaited) "input" || pyNeStr (e.getAttributeUnawaited "type") "file" then
    .error .elementNotFileInput
  else
    .ok [.setFileInputFiles files e.backendNodeId]

/- ===================================================================
   Shared helper lemmas
   =================================================================== -/

/-- An element returned by `getLast?` is a member of the list. -/
theorem getLast?_mem_of_eq {α : Type} {l : List α} {a : α} (h : l.getLast? = some a) : a ∈ l := by
  obtain ⟨hne, rfl⟩ := List.mem_getLast?_eq_getLast (l := l) (x := a) h
  exact List.getLast_mem hne

/-- Two strings differing at some character position differ. -/
theorem string_append_ne (pre t b : String) (i : Nat) (hi : i < pre.data.length)
    (h : pre.data.get? i ≠ b.data.get? i) : pre ++ t ≠ b := by
  intro e
  have hd : (pre ++ t).data = b.data := congrArg String.data e
  rw [String.data_append] at hd
  have h2 : (pre.data ++ t.data).get? i = b.data.get? i := by rw [hd]
  rw [List.get?_append hi] at h2
  exact h h2

/-- Successful `add_argument` means the argument was absent and got
appended. -/
theorem add_argument_ok {args : List String} {a : String} {l : List String}
    (h : Options.add_argument args a = .ok l) : a ∉ args ∧ l = args ++ [a] := by
  unfold Options.add_argument at h
  by_cases hm : a ∈ args
  · simp [hm] at h
  · simp [hm] at h
    exact ⟨hm, h.symm⟩

/-- `add_argument` only appends, so memberships persist. -/
theorem add_argument_mem {args : List String} {a : String} {l : List String}
    (h : Options.add_argument args a = .ok l) {x : String} (hx : x ∈ args) : x ∈ l := by
  rw [(add_argument_ok h).2]
  exact List.mem_append_left _ hx

/-- What `dictGet` returns carries the requested key as its `argKey`. -/
theorem dictGet_argKey {d : List String} {k a : String} (h : dictGet d k = some a) :
    argKey a = k := by
  unfold dictGet at h
  have hmem := getLast?_mem_of_eq h
  have := (List.mem_filter.mp hmem).2
  exact eq_of_beq this

/-- Removing a string with a different `argKey` cannot remove `x`. -/
theorem mem_erase_of_argKey_ne {args : List String} {x e : String} (hx : x ∈ args)
    (h : argKey x ≠ argKey e) : x ∈ args.erase e :=
  (List.mem_erase_of_ne (fun he => h (by rw [he]))).mpr hx

/-- `_delete_options_arguments` keeps every argument whose key is not
`--remote-debugging-port`. -/
theorem deleteOptionsArguments_mem {d args : List String} {x : String} (hx : x ∈ args)
    (h : argKey x ≠ "--remote-debugging-port") :
    x ∈ Options.deleteOptionsArguments d args := by
  unfold Options.deleteOptionsArguments
  cases he : dictGet d "--remote-debugging-port" with
  | none => exact hx
  | some a =>
    have hk := dictGet_argKey he
    exact mem_erase_of_argKey_ne hx (by rw [hk]; exact h)

/-- `_set_headless` keeps every existing argument. -/
theorem setHeadless_mem {headless : Bool} {d args l : List String}
    (h : Options.setHeadless headless d args = .ok l) {x : String} (hx : x ∈ args) : x ∈ l := by
  unfold Options.setHeadless at h
  by_cases hh : headless
  · simp [hh] at h
    by_cases hs : (dictGet d "--headless").isSome
    · simp [hs] at h
      rw [← h]; exact hx
    · simp [hs] at h
      exact add_argument_mem h hx
  · simp [hh] at h
    rw [← h]; exact hx

/-- `_set_user_data_dir` keeps every argument whose key is not
`--user-data-dir`. -/
theorem setUserDataDir_mem {u : String} {d args l : List String}
    (h : Options.setUserDataDir u d args = .ok l) {x : String} (hx : x ∈ args)
    (hk : argKey x ≠ "--user-data-dir") : x ∈ l := by
  unfold Options.setUserDataDir at h
  by_cases hu : u = ""
  · simp [hu] at h
    rw [← h]; exact hx
  · simp [hu] at h
    cases he : dictGet d "--user-data-dir" with
    | none =>
      rw [he] at h
      exact add_argument_mem h hx
    | some a =>
      rw [he] at h
      have hka := dictGet_argKey he
      exact add_argument_mem h (mem_erase_of_argKey_ne hx (by rw [hka]; exact hk))

/-- `_delete_options_arguments` keeps every argument other than the one
the snapshot dict selected for `--remote-debugging-port`. -/
theorem deleteOptionsArguments_mem_of_ne_chosen {d args : List String} {x : String}
    (hx : x ∈ args) (h : dictGet d "--remote-debugging-port" ≠ some x) :
    x ∈ Options.deleteOptionsArguments d args := by
  unfold Options.deleteOptionsArguments
  cases he : dictGet d "--remote-debugging-port" with
  | none => exact hx
  | some a =>
    have hne : x ≠ a := by
      intro hxa
      exact h (by rw [← hxa] at he; exact he)
    exact (List.mem_erase_of_ne hne).mpr hx

/-- Successful `add_default_arguments` appends exactly the three default
flags, and `--no-first-run` was absent before. -/
theorem addDefaultArguments_ok {args l : List String}
    (h : Options.addDefaultArguments args = .ok l) :
    l = args ++ ["--no-first-run", "--no-default-browser-check",
      "--enable-experimental-web-platform-features"] ∧ "--no-first-run" ∉ args := by
  unfold Options.addDefaultArguments at h
  cases h1 : Options.add_argument args "--no-first-run" with
  | error e => rw [h1] at h; simp at h
  | ok args1 =>
    rw [h1] at h
    dsimp only at h
    cases h2 : Options.add_argument args1 "--no-default-browser-check" with
    | error e => rw [h2] at h; simp at h
    | ok args2 =>
      rw [h2] at h
      dsimp only at h
      obtain ⟨hn1, he1⟩ := add_argument_ok h1
      obtain ⟨hn2, he2⟩ := add_argument_ok h2
      obtain ⟨hn3, he3⟩ := add_argument_ok h
      subst he1 he2 he3
      exact ⟨by simp, hn1⟩

/-- Destructuring a successful `Options.check` into its four steps. -/
theorem check_ok_destruct {o : Options} {N : Nat} {o' : Options}
    (h : Options.check o N = .ok o') :
    ∃ args2 args3 args6 args7,
      Options.setHeadless o.headless o.arguments
        (Options.deleteOptionsArguments o.arguments o.arguments) = .ok args2 ∧
      Options.setUserDataDir o.user_data_dir o.arguments args2 = .ok args3 ∧
      Options.addDefaultArguments args3 = .ok args6 ∧
      Options.add_argument args6 (portArgument N) = .ok args7 ∧
      o' = { o with arguments := args7 } := by
  unfold Options.check at h
  dsimp only at h
  cases h1 : Options.setHeadless o.headless o.arguments
      (Options.deleteOptionsArguments o.arguments o.arguments) with
  | error e => rw [h1] at h; simp at h
  | ok args2 =>
    rw [h1] at h
    dsimp only at h
    cases h2 : Options.setUserDataDir o.user_data_dir o.arguments args2 with
    | error e => rw [h2] at h; simp at h
    | ok args3 =>
      rw [h2] at h
      dsimp only at h
      cases h3 : Options.addDefaultArguments args3 with
      | error e => rw [h3] at h; simp at h
      | ok args6 =>
        rw [h3] at h
        dsimp only at h
        cases h4 : Options.add_argument args6 (portArgument N) with
        | error e => rw [h4] at h; simp at h
        | ok args7 =>
          rw [h4] at h
          simp at h
          exact ⟨args2, args3, args6, args7, rfl, h2, h3, h4, h.symm⟩

/-- After a successful `check`, `--no-first-run` is among the arguments. -/
theorem check_ok_mem_nfr {o : Options} {N : Nat} {o' : Options}
    (h : Options.check o N = .ok o') : "--no-first-run" ∈ o'.arguments := by
  obtain ⟨args2, args3, args6, args7, _, _, h3, h4, ho⟩ := check_ok_destruct h
  obtain ⟨he6, _⟩ := addDefaultArguments_ok h3
  obtain ⟨_, he7⟩ := add_argument_ok h4
  subst ho he6 he7
  simp

/-- The port argument differs from each of the three default flags
(character 2 is `r` against `n`, `n`, `e`). -/
theorem portArgument_not_mem_defaults (N : Nat) :
    portArgument N ∉ (["--no-first-run", "--no-default-browser-check",
      "--enable-experimental-web-platform-features"] : List String) := by
  intro h
  unfold portArgument at h
  rcases List.mem_cons.mp h with h1 | h
  · exact string_append_ne "--remote-debugging-port=" (toString N) "--no-first-run" 2
      (by decide) (by decide) h1
  rcases List.mem_cons.mp h with h2 | h
  · exact string_append_ne "--remote-debugging-port=" (toString N) "--no-default-browser-check" 2
      (by decide) (by decide) h2
  rcases List.mem_cons.mp h with h3 | h
  · exact string_append_ne "--remote-debugging-port=" (toString N)
      "--enable-experimental-web-platform-features" 2 (by decide) (by decide) h3
  · simp at h

/-- Running `check` on a default-constructed `Options` succeeds, for any
port, and yields exactly the three default flags plus the port argument. -/
theorem check_default_ok (N : Nat) :
    Options.check defaultOptions N = .ok { defaultOptions with arguments :=
      ["--no-first-run", "--no-default-browser-check",
       "--enable-experimental-web-platform-features", portArgument N] } := by
  have hne := portArgument_not_mem_defaults N
  show (match Options.add_argument ["--no-first-run", "--no-default-browser-check",
      "--enable-experimental-web-platform-features"] (portArgument N) with
    | Except.error e => (Except.error e : Except OptErr Options)
    | Except.ok args7 => Except.ok { defaultOptions with arguments := args7 }) = _
  unfold Options.add_argument
  rw [if_neg hne]
  rfl

/- ===================================================================
   Claim theorems
   =================================================================== -/

/-- Claim C1, amended: after `CDPSession._cleanup` — including the
cleanup run when a send fails with `ConnectionClosed` — the WebSocket
reference is cleared and a still-running receive task is cancelled, but
the pending-message map is left untouched: no awaiting PendingSlot is
rejected (the connection code never calls `set_exception`) and the
CorrelationTable keeps every entry it had. -/
theorem cleanup_leaves_pending_slots (s : CDPSessionState) :
    (s.cleanup).messageManager = s.messageManager ∧
    (s.cleanup).messageManager.pending = s.messageManager.pending ∧
    (s.cleanup).wsConnection = none ∧
    (s.cleanup).receiveTask
      = s.receiveTask.map (fun t => if t = .running then .cancelled else t) :=
  ⟨rfl, rfl, rfl, rfl⟩

/-- Claim C1 counterexample: a session with a live socket, a running
receive task and one still-awaiting slot (id 1).  After `_cleanup` the
CorrelationTable still holds the entry — it is not empty, and the slot
was never rejected with `Disconnected` — refuting the claim. -/
theorem cleanup_pending_not_drained_example :
    (CDPSessionState.cleanup ⟨some (), some .running, ⟨[1], 1⟩⟩).messageManager.pending = [1] ∧
    (CDPSessionState.cleanup ⟨some (), some .running, ⟨[1], 1⟩⟩).messageManager.pending ≠ [] :=
  ⟨rfl, by decide⟩

/-- Claim C2, amended: for each received frame, when the parsed JSON
carries an int `id` and a *truthy* `result`, the matching pending slot is
resolved with the `result` payload and removed; for every other frame
carrying an int `id` — in particular one carrying an `error` payload, or
a falsy/absent `result` — the code only logs (`logger.error`) and leaves
the manager unchanged: no slot is rejected with a ProtocolError; frames
without an int `id` are passed to `_handle_event_message`, whose body is
an unimplemented stub. -/
theorem process_single_message_cases (m : CDPMessageManager) (msg : ParsedMessage) :
    (∀ i r, msg.idField = some (.int i) → msg.resultField = some r → r.truthy = true →
      CDPSessionState.processSingleMessage m (some msg)
        = m.resolve_command i r.dump) ∧
    (∀ i, msg.idField = some (.int i) →
      (msg.resultField = none ∨ ∃ r, msg.resultField = some r ∧ r.truthy = false) →
      CDPSessionState.processSingleMessage m (some msg) = (m, .loggedResolveError)) ∧
    ((∀ i, msg.idField ≠ some (.int i)) →
      CDPSessionState.processSingleMessage m (some msg) = (m, .eventStub)) := by
  obtain ⟨idf, resf, errf⟩ := msg
  refine ⟨?_, ?_, ?_⟩
  · intro i r hid hres htr
    simp only at hid hres
    subst hid hres
    simp [CDPSessionState.processSingleMessage, htr]
  · intro i hid hres
    simp only at hid
    subst hid
    rcases hres with hres | ⟨r, hres, htr⟩ <;> simp only at hres <;> subst hres
    · simp [CDPSessionState.processSingleMessage]
    · simp [CDPSessionState.processSingleMessage, htr]
  · intro hno
    simp only at hno
    cases idf with
    | none => simp [CDPSessionState.processSingleMessage]
    | some idj =>
      cases idj with
      | int i => exact absurd rfl (hno i)
      | nonInt => simp [CDPSessionState.processSingleMessage]

/-- Witness for C2: a frame `{"id": 1, "result": {...}}` with slot 1
pending resolves slot 1 with the serialized result and removes it. -/
theorem process_single_message_cases_witness :
    CDPSessionState.processSingleMessage ⟨[1], 1⟩
      (some ⟨some (.int 1), some ⟨"\x7b\x7d", true⟩, none⟩)
      = CDPMessageManager.resolve_command ⟨[1], 1⟩ 1 "\x7b\x7d" :=
  (process_single_message_cases ⟨[1], 1⟩ ⟨some (.int 1), some ⟨"\x7b\x7d", true⟩, none⟩).1
    1 ⟨"\x7b\x7d", true⟩ rfl rfl rfl

/-- Claim C2 counterexample: the frame `{"id": 1, "error": {...}}` with
slot 1 still awaiting.  The code merely logs an error: the slot is not
rejected with a ProtocolError and stays in the pending map, refuting the
claim's error branch. -/
theorem error_frame_not_rejected_example :
    CDPSessionState.processSingleMessage ⟨[1], 1⟩
      (some ⟨some (.int 1), none, some ⟨"error-payload", true⟩⟩)
      = (⟨[1], 1⟩, .loggedResolveError) ∧
    (1 : Int) ∈ (CDPSessionState.processSingleMessage ⟨[1], 1⟩
      (some ⟨some (.int 1), none, some ⟨"error-payload", true⟩⟩)).1.pending :=
  ⟨rfl, by decide⟩

/-- Claim C3, amended: after a successful `check(N)` the argument list
contains `--remote-debugging-port=N` exactly once and contains
`--no-first-run` and `--no-default-browser-check`; but of the
caller-supplied `--remote-debugging-port` arguments only the one the
prefix map retains (the last) is removed — every other caller-supplied
`--remote-debugging-port` argument survives into the final list. -/
theorem check_port_and_defaults_invariant (o : Options) (N : Nat) (o' : Options)
    (h : Options.check o N = .ok o') :
    o'.arguments.count (portArgument N) = 1 ∧
    "--no-first-run" ∈ o'.arguments ∧
    "--no-default-browser-check" ∈ o'.arguments ∧
    (∀ a ∈ o.arguments, argKey a = "--remote-debugging-port" →
      dictGet o.arguments "--remote-debugging-port" ≠ some a → a ∈ o'.arguments) := by
  obtain ⟨args2, args3, args6, args7, h1, h2, h3, h4, ho⟩ := check_ok_destruct h
  obtain ⟨he6, _⟩ := addDefaultArguments_ok h3
  obtain ⟨hnp, he7⟩ := add_argument_ok h4
  subst ho he7 he6
  refine ⟨?_, by simp, by simp, ?_⟩
  · have hz := List.count_eq_zero.mpr hnp
    rw [List.count_append] at hz
    have h1 : List.count (portArgument N) [portArgument N] = 1 := by simp
    simp only [List.count_append, h1]
    omega
  · intro a ha hk hne
    have m1 : a ∈ Options.deleteOptionsArguments o.arguments o.arguments :=
      deleteOptionsArguments_mem_of_ne_chosen ha hne
    have m2 : a ∈ args2 := setHeadless_mem h1 m1
    have m3 : a ∈ args3 := setUserDataDir_mem h2 m2 (by rw [hk]; decide)
    simp [m3]

/-- Witness for C3: instantiating the invariant at a default `Options`
and port 9222. -/
theorem check_port_and_defaults_invariant_witness :
    ({ defaultOptions with arguments := ["--no-first-run", "--no-default-browser-check",
        "--enable-experimental-web-platform-features", portArgument 9222] } : Options).arguments.count
      (portArgument 9222) = 1 ∧
    "--no-first-run" ∈ ({ defaultOptions with arguments := ["--no-first-run",
        "--no-default-browser-check", "--enable-experimental-web-platform-features",
        portArgument 9222] } : Options).arguments ∧
    "--no-default-browser-check" ∈ ({ defaultOptions with arguments := ["--no-first-run",
        "--no-default-browser-check", "--enable-experimental-web-platform-features",
        portArgument 9222] } : Options).arguments ∧
    (∀ a ∈ defaultOptions.arguments, argKey a = "--remote-debugging-port" →
      dictGet defaultOptions.arguments "--remote-debugging-port" ≠ some a →
      a ∈ ({ defaultOptions with arguments := ["--no-first-run", "--no-default-browser-check",
        "--enable-experimental-web-platform-features", portArgument 9222] } : Options).arguments) :=
  check_port_and_defaults_invariant defaultOptions 9222 _ (by rfl)

/-- Claim C3 counterexample: the caller supplied two distinct
`--remote-debugging-port` arguments (possible through `add_argument`,
which deduplicates by the full string only).  `check(9222)` removes only
the one retained by the prefix map (`=2`) and leaves
`--remote-debugging-port=1` in the final argument list, refuting the
claim that any caller-supplied `--remote-debugging-port` is removed. -/
theorem check_duplicate_port_left_example :
    Options.check ⟨"", false, "", ["--remote-debugging-port=1", "--remote-debugging-port=2"]⟩ 9222
      = .ok ⟨"", false, "", ["--remote-debugging-port=1", "--no-first-run",
        "--no-default-browser-check", "--enable-experimental-web-platform-features",
        "--remote-debugging-port=9222"]⟩ ∧
    "--remote-debugging-port=1" ∈ (["--remote-debugging-port=1", "--no-first-run",
        "--no-default-browser-check", "--enable-experimental-web-platform-features",
        "--remote-debugging-port=9222"] : List String) :=
  ⟨by rfl, by decide⟩

/-- Claim C4, amended: option assembly is not idempotent — whenever
`check(N)` succeeds, running `check(N)` again on the result never
succeeds: `add_default_arguments` re-adds `--no-first-run`, which the
first run already appended, so `add_argument` raises
`ArgumentAlreadyExistsInOptions`. -/
theorem check_second_run_fails (o : Options) (N : Nat) (o' : Options)
    (h : Options.check o N = .ok o') (o'' : Options) : Options.check o' N ≠ .ok o'' := by
  intro h2
  have hnfr : "--no-first-run" ∈ o'.arguments := check_ok_mem_nfr h
  obtain ⟨args2, args3, args6, args7, h1', h2', h3', h4', _⟩ := check_ok_destruct h2
  have m1 : "--no-first-run" ∈ Options.deleteOptionsArguments o'.arguments o'.arguments :=
    deleteOptionsArguments_mem hnfr (by decide)
  have m2 : "--no-first-run" ∈ args2 := setHeadless_mem h1' m1
  have m3 : "--no-first-run" ∈ args3 := setUserDataDir_mem h2' m2 (by decide)
  exact (addDefaultArguments_ok h3').2 m3

/-- Witness for C4: the default options check at 9222 succeeds once, and
a second run on its result cannot produce that result again. -/
theorem check_second_run_fails_witness :
    Options.check { defaultOptions with arguments := ["--no-first-run",
      "--no-default-browser-check", "--enable-experimental-web-platform-features",
      portArgument 9222] } 9222
      ≠ .ok { defaultOptions with arguments := ["--no-first-run",
        "--no-default-browser-check", "--enable-experimental-web-platform-features",
        portArgument 9222] } :=
  check_second_run_fails defaultOptions 9222 _ (by rfl) _

/-- Claim C4 counterexample: for the default `Options` and port 9222 the
first `check` succeeds, but the second `check` on its result raises
`ArgumentAlreadyExistsInOptions('--no-first-run')` instead of succeeding
with the same argument list. -/
theorem check_not_idempotent_example :
    Options.check defaultOptions 9222 = .ok ⟨"", false, "", ["--no-first-run",
      "--no-default-browser-check", "--enable-experimental-web-platform-features",
      "--remote-debugging-port=9222"]⟩ ∧
    Options.check ⟨"", false, "", ["--no-first-run", "--no-default-browser-check",
      "--enable-experimental-web-platform-features", "--remote-debugging-port=9222"]⟩ 9222
      = .error (.argumentAlreadyExists "--no-first-run") :=
  ⟨by rfl, by rfl⟩

/-- Claim C5, evaluated at the failing input: on an `Options` with empty
`user_data_dir` and no `--user-data-dir` argument, `check(9222)` succeeds
but adds *no* `--user-data-dir` argument — the scratch-directory creation
is commented out in `_set_user_data_dir` under a `# todo set temp dir`
marker, diverging from the claim. -/
theorem check_adds_no_user_data_dir :
    Options.check defaultOptions 9222 = .ok ⟨"", false, "", ["--no-first-run",
      "--no-default-browser-check", "--enable-experimental-web-platform-features",
      "--remote-debugging-port=9222"]⟩ ∧
    (∀ a ∈ (["--no-first-run", "--no-default-browser-check",
      "--enable-experimental-web-platform-features",
      "--remote-debugging-port=9222"] : List String), argKey a ≠ "--user-data-dir") :=
  ⟨by rfl, by decide⟩

/-- The element-materialisation loop issues only `DOM.describeNode`
commands — never a `DOM.performSearch`. -/
theorem makeElementsCmds_no_search (ids : List Nat) (q : String) (b : Bool) :
    CDPCmd.performSearch q b ∉ (makeElementsCmds ids).2 := by
  induction ids with
  | nil => simp [makeElementsCmds]
  | cons i rest ih =>
    by_cases hi : i = 0
    · simp [makeElementsCmds, hi]
    · simp only [makeElementsCmds, hi, if_neg]
      intro hmem
      rcases List.mem_cons.mp hmem with hc | hc
      · exact CDPCmd.noConfusion hc
      · exact ih hc

/-- Claim C6, amended: in the legacy `src` implementation, a
document-rooted XPath lookup issues exactly one
`DOM.performSearch{query, includeUserAgentShadowDOM: true}` and, whenever
a search id was returned, issues `DOM.discardSearchResults` for it on
every exit path (empty result, normal fetch, or a failing
`DOM.getSearchResults`); the current `webauto` implementation instead
raises `TypeError` at its `JsScripts.find_element(s)_by_xpath(...,
is_document=...)` call (the classmethods accept no such keyword) before
any CDP command, so it issues no `DOM.performSearch` and trivially leaves
no live search id. -/
theorem xpath_document_search_discipline :
    (∀ (xpath : String) (mode : FindMode) (perf : Except CDPErr (String × Nat))
        (gsr : Except CDPErr (List Nat)),
      (srcFindElementByXpathDocument xpath mode perf gsr).2.count
        (.performSearch xpath true) = 1 ∧
      (∀ sid cnt, perf = .ok (sid, cnt) →
        CDPCmd.discardSearchResults sid
          ∈ (srcFindElementByXpathDocument xpath mode perf gsr).2)) ∧
    (∀ (xpath : String) (mode : FindMode),
      webautoFindElementByXpath xpath mode
        = (.error (.typeError "unexpected keyword argument"), [])) := by
  constructor
  · intro xpath mode perf gsr
    constructor
    · cases perf with
      | error e => simp [srcFindElementByXpathDocument]
      | ok p =>
        obtain ⟨sid, cnt⟩ := p
        by_cases hc : cnt = 0
        · cases mode <;> simp [srcFindElementByXpathDocument, hc]
        · cases gsr with
          | error e => cases mode <;> simp [srcFindElementByXpathDocument, hc]
          | ok ids =>
            have hz := List.count_eq_zero.mpr (makeElementsCmds_no_search ids xpath true)
            cases mode <;>
              simp [srcFindElementByXpathDocument, hc, List.count_append, hz]
    · intro sid cnt hperf
      subst hperf
      by_cases hc : cnt = 0
      · cases mode <;> simp [srcFindElementByXpathDocument, hc]
      · cases gsr with
        | error e => cases mode <;> simp [srcFindElementByXpathDocument, hc]
        | ok ids => cases mode <;> simp [srcFindElementByXpathDocument, hc]
  · intro xpath mode
    cases mode <;> rfl

/-- Witness for C6: a concrete successful document search (`searchId`
`s1`, two results) discards its search id. -/
theorem xpath_document_search_discipline_witness :
    CDPCmd.discardSearchResults "s1"
      ∈ (srcFindElementByXpathDocument "//a" .multiple (.ok ("s1", 2)) (.ok [5, 7])).2 :=
  (xpath_document_search_discipline.1 "//a" .multiple (.ok ("s1", 2)) (.ok [5, 7])).2
    "s1" 2 rfl

/-- Claim C6 counterexample: a document-rooted
`find_element(By.XPATH, "//missing")` in the `webauto` implementation
issues no CDP command at all — in particular no `DOM.performSearch` —
because the `JsScripts` call raises `TypeError`, refuting the claim that
the lookup is performed via `DOM.performSearch`. -/
theorem webauto_xpath_no_perform_search_example :
    (webautoFindElementByXpath "//missing" .single).2 = [] ∧
    CDPCmd.performSearch "//missing" true ∉ (webautoFindElementByXpath "//missing" .single).2 ∧
    (webautoFindElementByXpath "//missing" .single).1
      = .error (.typeError "unexpected keyword argument") :=
  ⟨rfl, by intro h; rw [show (webautoFindElementByXpath "//missing" .single).2 = [] from rfl] at h; simp at h, rfl⟩

/-- Claim C7, amended: `Tab.expect_file_chooser` enables file-chooser
interception and registers the one-shot `Page.fileChooserOpened` handler
on entry, and issues `Page.setInterceptFileChooserDialog{enabled: false}`
on *normal* exit only; when the scoped block raises, the exception is
thrown into the generator at its `yield` — the function body has no
`try`/`finally` — so the disable command is never issued. -/
theorem expect_file_chooser_exit_traces :
    expectFileChooser .normal
      = ([.cmd (.setInterceptFileChooserDialog true), .registerOneShot "Page.fileChooserOpened",
          .cmd (.setInterceptFileChooserDialog false)], false) ∧
    expectFileChooser .raised
      = ([.cmd (.setInterceptFileChooserDialog true), .registerOneShot "Page.fileChooserOpened"],
         true) ∧
    ChooserAction.cmd (.setInterceptFileChooserDialog false) ∈ (expectFileChooser .normal).1 ∧
    ChooserAction.cmd (.setInterceptFileChooserDialog true) ∈ (expectFileChooser .raised).1 :=
  ⟨rfl, rfl, by decide, by decide⟩

/-- Claim C7 counterexample: a block that raises.  The trace holds the
enable command and the handler registration but no
`setInterceptFileChooserDialog{enabled: false}`, refuting the claim that
the disable command is issued on every exit including exceptional ones. -/
theorem expect_file_chooser_raise_example :
    (expectFileChooser .raised).1
      = [.cmd (.setInterceptFileChooserDialog true), .registerOneShot "Page.fileChooserOpened"] ∧
    ChooserAction.cmd (.setInterceptFileChooserDialog false) ∉ (expectFileChooser .raised).1 ∧
    (expectFileChooser .raised).2 = true :=
  ⟨rfl, by decide, rfl⟩

/-- Claim C8, evaluated at the failing input: the element
`<input type="file">` (backendNodeId 7) satisfies both conditions the
claim names — awaited, its tag is `input` and its `type` attribute is
`file` — yet `set_input_files` raises `ElementNotFileInput`, because the
source compares the un-awaited coroutines `self.tag` and
`self.get_attribute('type')` against strings, which is never an equality;
indeed the command raises for *every* element and never issues
`DOM.setFileInputFiles`. -/
theorem set_input_files_always_raises :
    Element.tag ⟨7, ⟨"INPUT", ["type", "file"]⟩⟩ = "input" ∧
    Element.get_attribute ⟨7, ⟨"INPUT", ["type", "file"]⟩⟩ (some "type") = .found "file" ∧
    Element.set_input_files ⟨7, ⟨"INPUT", ["type", "file"]⟩⟩ ["/tmp/x.txt"]
      = .error .elementNotFileInput ∧
    (∀ (e : Element) (files : List String),
      e.set_input_files files = .error .elementNotFileInput) :=
  ⟨by decide, by decide, rfl, fun e files => rfl⟩

/-- Claim C9, evaluated at the failing input: on a node with attributes
`["id", "x", "class", "c"]`, looking up an existing name returns its
paired value, but `get_attribute(None)` returns Python `None` rather than
the whole map — the source's final `return None if name is None else
attrs` is inverted, and the accumulated map is instead returned when a
given name matches no key. -/
theorem get_attribute_inverted_return :
    Element.get_attribute ⟨3, ⟨"DIV", ["id", "x", "class", "c"]⟩⟩ (some "class")
      = .found "c" ∧
    Element.get_attribute ⟨3, ⟨"DIV", ["id", "x", "class", "c"]⟩⟩ none = .pynone ∧
    Element.get_attribute ⟨3, ⟨"DIV", ["id", "x", "class", "c"]⟩⟩ (some "missing")
      = .attrMap [("id", "x"), ("class", "c")] :=
  ⟨by decide, by decide, by decide⟩

/-- Claim C10: the `randint(9222, 9322)` default is drawn once, when the
`BrowserInfo` class body executes; instances constructed without an
explicit `remote_port` reuse that single class-level value and consume no
randomness (the ambient random state passes through unchanged), so any
two default-constructed `BrowserInfo` have equal `remote_port`, which
lies in `[9222, 9322]`. -/
theorem browser_info_single_port_draw (seed r1 r2 : Nat) :
    ∃ b1 b2 : BrowserInfo,
      mkBrowserInfo (defineBrowserInfoClass seed) none none none r1 = (.ok b1, r1) ∧
      mkBrowserInfo (defineBrowserInfoClass seed) none none none r2 = (.ok b2, r2) ∧
      b1.remote_port = b2.remote_port ∧
      b1.remote_port = randint 9222 9322 seed ∧
      9222 ≤ b1.remote_port ∧ b1.remote_port ≤ 9322 := by
  have hc := check_default_ok (randint 9222 9322 seed)
  refine ⟨⟨"localhost", randint 9222 9322 seed,
      { defaultOptions with arguments := ["--no-first-run", "--no-default-browser-check",
        "--enable-experimental-web-platform-features",
        portArgument (randint 9222 9322 seed)] }⟩,
    ⟨"localhost", randint 9222 9322 seed,
      { defaultOptions with arguments := ["--no-first-run", "--no-default-browser-check",
        "--enable-experimental-web-platform-features",
        portArgument (randint 9222 9322 seed)] }⟩, ?_, ?_, rfl, rfl, ?_, ?_⟩
  · unfold mkBrowserInfo defineBrowserInfoClass
    dsimp only [Option.getD]
    rw [hc]
  · unfold mkBrowserInfo defineBrowserInfoClass
    dsimp only [Option.getD]
    rw [hc]
  · dsimp only
    unfold randint
    omega
  · dsimp only
    unfold randint
    have : seed % 101 < 101 := Nat.mod_lt _ (by omega)
    omega

/-- Witness for C5: instantiating the no-`--user-data-dir` conjunct at
the first argument of the assembled list. -/
theorem check_adds_no_user_data_dir_witness :
    argKey "--no-first-run" ≠ "--user-data-dir" :=
  check_adds_no_user_data_dir.2 "--no-first-run" (by decide)
